import Mathlib

/-!
Verification of the command-extraction pipeline of
`src/packages/RN-TSCodegen/src/ComponentCommandParser.ts` (`parseCommands`).

The embedding models the TypeScript compiler objects that the function
consumes: syntactic type nodes, parameter declarations, member declarations,
symbols, and semantic types.  The semantic side (the type checker) is the
oracle the function queries: `getTypeFromTypeNode`, `getProperty`,
`getCallSignatures`, and the category predicates `isString`, `isBoolean`,
`isInt32`, `isVoid`.  Category predicates are modelled as flags carried by a
semantic type, since `parseCommands` only ever branches on their answers.

An absent type annotation handed to the public
`typeChecker.getTypeFromTypeNode` resolves to the checker's `errorType` (its
`getParseTreeNode` guard) and flows into the documented failures.
Dereferencing an absent node directly (`ts.isTypeReferenceNode(undefined)`
at line 61 for an un-annotated first parameter, `param.type.getText()` at
line 88 for an un-annotated later parameter) is modelled as the
distinguished error `Err.fault`, distinct from every `throw new Error(...)`
site of the source.
-/

namespace RNTSCodegen

/-- A syntactic type-argument node.  Type arguments in the TypeScript AST
are type nodes: a quoted view name such as `'MyView'` is parsed as a
LiteralTypeNode (kind `LiteralType`) wrapping the StringLiteral token,
never as a node of kind `StringLiteral` itself. -/
inductive TypeArgNode : Type where
  | literalType (value : String)
  | otherArg (text : String)
deriving DecidableEq

/-- `ts.isStringLiteral(node)` tests `node.kind === SyntaxKind.StringLiteral`.
No type-argument node has that kind — a quoted name sits inside a
LiteralTypeNode of kind `LiteralType` — so the test answers false on every
type argument. -/
def TypeArgNode.isStringLiteral : TypeArgNode → Bool
  | .literalType _ => false
  | .otherArg _ => false

/-- A syntactic type node as inspected by `parseCommands`: a type-reference
node (`ts.isTypeReferenceNode`) carrying its `typeName.getText()`, its
optional `typeArguments` list and its own source text, or any other node. -/
inductive TypeNode : Type where
  | typeReference (typeNameText : String) (typeArguments : Option (List TypeArgNode)) (text : String)
  | otherType (text : String)
deriving DecidableEq

/-- `node.getText()`. -/
def TypeNode.getText : TypeNode → String
  | .typeReference _ _ t => t
  | .otherType t => t

/-- `ts.isTypeReferenceNode(node)` on a present node. -/
def TypeNode.isTypeReferenceNode : TypeNode → Bool
  | .typeReference _ _ _ => true
  | .otherType _ => false

/-- A `ts.ParameterDeclaration`: its `name.getText()` and its optional
declared type annotation (`param.type`, which may be absent). -/
structure ParamDecl where
  name : String
  type : Option TypeNode
deriving DecidableEq

/-- A declaration site of a symbol, covering the kinds `parseCommands`
distinguishes: method signatures, call-signature declarations, property
signatures, parameter declarations (`ts.isParameter`), and everything else.
`type` is the declared (return or property) type annotation, possibly
absent; `questionToken` records whether `decl.questionToken` is present. -/
inductive Decl : Type where
  | methodSignature (typeParameters : Option (List String)) (parameters : List ParamDecl)
      (type : Option TypeNode) (questionToken : Bool)
  | callSignature (typeParameters : Option (List String)) (parameters : List ParamDecl)
      (type : Option TypeNode) (questionToken : Bool)
  | propertySignature (type : Option TypeNode) (questionToken : Bool)
  | parameterDecl (param : ParamDecl)
  | otherDecl (text : String)
deriving DecidableEq

/-- `decl.questionToken !== undefined` (an absent `questionToken` on a kind
that has none reads as `undefined`, hence `false`). -/
def Decl.hasQuestionToken : Decl → Bool
  | .methodSignature _ _ _ q => q
  | .callSignature _ _ _ q => q
  | .propertySignature _ q => q
  | _ => false

/-- A `ts.Symbol`: its `name` and its list of declaration sites. -/
structure Symbol where
  name : String
  declarations : List Decl
deriving DecidableEq

mutual
/-- A semantic type (`ts.Type`) as the oracle answers about it: the four
category predicates `isString`, `isBoolean`, `isInt32`, `isVoid` of
`TypeChecker.ts`, and its call signatures (`type.getCallSignatures()`). -/
inductive SemType : Type where
  | mk (isStr isBool isI32 isVd : Bool) (signatures : List Signature)

/-- A `ts.Signature`: its `typeParameters` (possibly absent), the return
type `sig.getReturnType()`, and its parameter symbols `sig.parameters`. -/
inductive Signature : Type where
  | mk (typeParameters : Option (List String)) (returnType : SemType) (parameters : List Symbol)
end

/-- `isString(type)` of `TypeChecker.ts` (oracle answer). -/
def isString : SemType → Bool
  | .mk s _ _ _ _ => s

/-- `isBoolean(type)` of `TypeChecker.ts` (oracle answer). -/
def isBoolean : SemType → Bool
  | .mk _ b _ _ _ => b

/-- `isInt32(type)` of `TypeChecker.ts` (oracle answer). -/
def isInt32 : SemType → Bool
  | .mk _ _ i _ _ => i

/-- `isVoid(type)` of `TypeChecker.ts` (oracle answer). -/
def isVoid : SemType → Bool
  | .mk _ _ _ v _ => v

/-- `type.getCallSignatures()`. -/
def SemType.getCallSignatures : SemType → List Signature
  | .mk _ _ _ _ sigs => sigs

/-- `signature.typeParameters`. -/
def Signature.typeParameters : Signature → Option (List String)
  | .mk tps _ _ => tps

/-- `signature.getReturnType()`. -/
def Signature.getReturnType : Signature → SemType
  | .mk _ r _ => r

/-- `signature.parameters`. -/
def Signature.parameters : Signature → List Symbol
  | .mk _ _ ps => ps

/-- The errors `parseCommands` can raise: one constructor per `throw` site of
the source, carrying the data interpolated into the message, plus `fault`
for a dereference of an absent node (a TypeError, not a thrown `Error`). -/
inductive Err : Type where
  | memberNotFound (commandName typeText : String)
  | genericNotAllowed (commandName typeText : String)
  | shouldBeParameter (paramName commandName typeText : String)
  | notAFunction (commandName typeText : String)
  | nonVoidReturn (commandName typeText : String)
  | atLeastOneParameter (commandName typeText : String)
  | invalidRefParameter (commandName typeText : String)
  | unsupportedParamType (paramName commandName typeText paramTypeText : String)
  | fault
deriving DecidableEq

/-- The message text of each `throw new Error(...)` site. -/
def Err.message : Err → String
  | .memberNotFound n t =>
      "Unable to find command " ++ n ++ " in type " ++ t ++ "."
  | .genericNotAllowed n t =>
      "Command " ++ n ++ " in type " ++ t ++ " should not be generic."
  | .shouldBeParameter p n t =>
      "Parameter " ++ p ++ " in command " ++ n ++ " in type " ++ t ++ " should be a parameter."
  | .notAFunction n t =>
      "Command " ++ n ++ " in type " ++ t ++ " should be a function."
  | .nonVoidReturn n t =>
      "Command " ++ n ++ " in type " ++ t ++ " should return void."
  | .atLeastOneParameter n t =>
      "Command " ++ n ++ " in type " ++ t ++ " should have at least one parameter."
  | .invalidRefParameter n t =>
      "The first parameter in command " ++ n ++ " in type " ++ t ++ " should be React.Ref<'NAME'>."
  | .unsupportedParamType p n t pt =>
      "Parameter " ++ p ++ " in command " ++ n ++ " in type " ++ t ++
        " should be either string, boolean or Int32, instead of " ++ pt ++ "."
  | .fault => "TypeError: cannot read properties of undefined"

/-- The IR tag of a mapped parameter type: `StringTypeAnnotation`,
`BooleanTypeAnnotation` or `Int32TypeAnnotation` of `CodegenSchema`. -/
inductive ParamTypeTag : Type where
  | stringTag
  | booleanTag
  | int32Tag
deriving DecidableEq

/-- One emitted parameter (`CommandsFunctionTypeParamAnnotation` of
`CodegenSchema`): its name and its type tag. -/
structure CommandParamShape where
  name : String
  tag : ParamTypeTag
deriving DecidableEq

/-- One emitted command (`CommandTypeShape` of `CodegenSchema`): name,
optional flag, and the parameter list of its `FunctionTypeAnnotation`. -/
structure CommandTypeShape where
  name : String
  optional : Bool
  params : List CommandParamShape
deriving DecidableEq

/-- The input of `parseCommands` together with the oracle it queries:
`info.typeNode.getText()`, `info.supportedCommands`,
`mappedType.getProperty`, and `typeChecker.getTypeFromTypeNode`. -/
structure ExportCommandInfo where
  typeText : String
  supportedCommands : List String
  getProperty : String → Option Symbol
  getTypeFromTypeNode : TypeNode → SemType

/-- The checker's `errorType`: the semantic type the public
`typeChecker.getTypeFromTypeNode` returns when handed an absent node (its
`getParseTreeNode` guard makes it fall back to the error type instead of
throwing).  It satisfies none of the category predicates and exposes no
call signature. -/
def errorType : SemType := .mk false false false false []

/-- `typeChecker.getTypeFromTypeNode(node)` where `node` may be absent: the
public checker API returns `errorType` for an absent node. -/
def getTypeFromOptNode (checker : TypeNode → SemType) : Option TypeNode → SemType
  | none => errorType
  | some tn => checker tn

/-- `tps !== undefined && tps.length !== 0` (lines 24 and 34). -/
def hasTypeParams : Option (List String) → Bool
  | none => false
  | some tps => tps.length != 0

/-- Lines 40–44: a parameter symbol must have exactly one declaration and it
must be a parameter declaration, else `should be a parameter`. -/
def resolveParamSymbol (commandName typeText : String) (parameterSymbol : Symbol) :
    Except Err ParamDecl :=
  match parameterSymbol.declarations with
  | [.parameterDecl p] => .ok p
  | _ => .error (.shouldBeParameter parameterSymbol.name commandName typeText)

/-- Lines 39–45: `signatures[0].parameters.map(...)`, failing on the first
parameter symbol that does not resolve. -/
def resolveParams (commandName typeText : String) : List Symbol → Except Err (List ParamDecl)
  | [] => .ok []
  | s :: rest =>
    match resolveParamSymbol commandName typeText s with
    | .error e => .error e
    | .ok p =>
      match resolveParams commandName typeText rest with
      | .error e => .error e
      | .ok ps => .ok (p :: ps)

/-- Lines 17–51: resolve the member symbol of a command to the triple
`(funcDecl, funcReturnType, funcParameters)`, or fail.  A symbol whose
declaration count differs from one, or whose single declaration fits
neither shape, leaves `funcDecl` undefined and line 50 throws
`should be a function`. -/
def resolveMember (checker : TypeNode → SemType) (commandName typeText : String)
    (methodSymbol : Symbol) : Except Err (Decl × SemType × List ParamDecl) :=
  match methodSymbol.declarations with
  | [decl] =>
    match decl with
    | .methodSignature tps ps rt q =>
      if hasTypeParams tps then .error (.genericNotAllowed commandName typeText)
      else .ok (.methodSignature tps ps rt q, getTypeFromOptNode checker rt, ps)
    | .callSignature tps ps rt q =>
      if hasTypeParams tps then .error (.genericNotAllowed commandName typeText)
      else .ok (.callSignature tps ps rt q, getTypeFromOptNode checker rt, ps)
    | .propertySignature tn q =>
      (match (getTypeFromOptNode checker tn).getCallSignatures with
      | [sig] =>
        if hasTypeParams sig.typeParameters then
          .error (.genericNotAllowed commandName typeText)
        else
          match resolveParams commandName typeText sig.parameters with
          | .error e => .error e
          | .ok ps => .ok (.propertySignature tn q, sig.getReturnType, ps)
      | _ => .error (.notAFunction commandName typeText))
    | _ => .error (.notAFunction commandName typeText)
  | _ => .error (.notAFunction commandName typeText)

/-- Lines 61–66: the condition under which the first-parameter check throws
`should be React.Ref<'NAME'>`.  Among type-reference nodes it throws
exactly when the type name is NOT `React.Ref` AND there is exactly one
type argument AND `ts.isStringLiteral` answers true on it; since no parsed
type argument has kind `StringLiteral`, the clause never fires on a
type-reference node. -/
def refCheckFails : TypeNode → Bool
  | .typeReference typeNameText typeArguments _ =>
    typeNameText != "React.Ref" &&
      (match typeArguments with
       | some [arg] => TypeArgNode.isStringLiteral arg
       | _ => false)
  | .otherType _ => false

/-- Lines 76–94: classify one non-first parameter.  An absent type
annotation resolves to `errorType` at line 78, which matches none of the
three categories, and line 88 then dereferences the absent `param.type`
for the message text (`param.type.getText()`) — a fault. -/
def mapParam (checker : TypeNode → SemType) (commandName typeText : String)
    (param : ParamDecl) : Except Err CommandParamShape :=
  match param.type with
  | none => .error .fault
  | some tn =>
    if isString (checker tn) then .ok { name := param.name, tag := .stringTag }
    else if isBoolean (checker tn) then .ok { name := param.name, tag := .booleanTag }
    else if isInt32 (checker tn) then .ok { name := param.name, tag := .int32Tag }
    else .error (.unsupportedParamType param.name commandName typeText tn.getText)

/-- Line 75: `funcParameters.slice(1).map(...)`, failing on the first
parameter that does not classify. -/
def mapParams (checker : TypeNode → SemType) (commandName typeText : String) :
    List ParamDecl → Except Err (List CommandParamShape)
  | [] => .ok []
  | p :: rest =>
    match mapParam checker commandName typeText p with
    | .error e => .error e
    | .ok s =>
      match mapParams checker commandName typeText rest with
      | .error e => .error e
      | .ok ss => .ok (s :: ss)

/-- The body of the `for` loop of `parseCommands` (lines 12–97) for one
command name.  An absent first-parameter type annotation faults at
`ts.isTypeReferenceNode(viewRefType)` (line 61). -/
def parseOneCommand (info : ExportCommandInfo) (commandName : String) :
    Except Err CommandTypeShape :=
  match info.getProperty commandName with
  | none => .error (.memberNotFound commandName info.typeText)
  | some methodSymbol =>
    match resolveMember info.getTypeFromTypeNode commandName info.typeText methodSymbol with
    | .error e => .error e
    | .ok (funcDecl, funcReturnType, funcParameters) =>
      if !(isVoid funcReturnType) then
        .error (.nonVoidReturn commandName info.typeText)
      else
        match funcParameters with
        | [] => .error (.atLeastOneParameter commandName info.typeText)
        | firstParam :: restParams =>
          match firstParam.type with
          | none => .error .fault
          | some viewRefType =>
            if !(viewRefType.isTypeReferenceNode) || refCheckFails viewRefType then
              .error (.invalidRefParameter commandName info.typeText)
            else
              match mapParams info.getTypeFromTypeNode commandName info.typeText restParams with
              | .error e => .error e
              | .ok params =>
                .ok { name := commandName,
                      optional := funcDecl.hasQuestionToken,
                      params := params }

/-- The `for` loop of `parseCommands` over the requested names, appending in
request order and aborting on the first failure. -/
def parseCommandsAux (info : ExportCommandInfo) : List String → Except Err (List CommandTypeShape)
  | [] => .ok []
  | commandName :: rest =>
    match parseOneCommand info commandName with
    | .error e => .error e
    | .ok shape =>
      match parseCommandsAux info rest with
      | .error e => .error e
      | .ok shapes => .ok (shape :: shapes)

/-- `parseCommands(info)` (lines 6–99). -/
def parseCommands (info : ExportCommandInfo) : Except Err (List CommandTypeShape) :=
  parseCommandsAux info info.supportedCommands

/-! ### Concrete fixtures used to evaluate the pipeline -/

/-- The syntactic node `void`. -/
def voidNode : TypeNode := .otherType "void"

/-- The syntactic node `Int32`. -/
def int32Node : TypeNode := .otherType "Int32"

/-- The syntactic node `string`. -/
def stringNode : TypeNode := .otherType "string"

/-- The syntactic node `boolean`. -/
def booleanNode : TypeNode := .otherType "boolean"

/-- The syntactic node of an unsupported parameter type `number[]`. -/
def arrayNode : TypeNode := .otherType "number[]"

/-- The type-reference node `Ref<'MyView'>` (the documented ref shape,
spelled without the `React.` qualifier); its type argument is the
LiteralTypeNode wrapping the quoted view name, as the parser builds it. -/
def refNode : TypeNode := .typeReference "Ref" (some [.literalType "MyView"]) "Ref<'MyView'>"

/-- The type-reference node `React.Ref<'MyView'>`. -/
def reactRefNode : TypeNode :=
  .typeReference "React.Ref" (some [.literalType "MyView"]) "React.Ref<'MyView'>"

/-- The semantic type for which `isVoid` answers true. -/
def voidType : SemType := .mk false false false true []

/-- The semantic type for which `isInt32` answers true. -/
def int32Type : SemType := .mk false false true false []

/-- The semantic type for which `isString` answers true. -/
def stringType : SemType := .mk true false false false []

/-- The semantic type for which `isBoolean` answers true. -/
def booleanType : SemType := .mk false true false false []

/-- A semantic type outside the three parameter categories and not void. -/
def anyType : SemType := .mk false false false false []

/-- A fixture type checker sending each primitive node to its semantic
type and everything else to `anyType`. -/
def checker0 : TypeNode → SemType := fun tn =>
  if tn = voidNode then voidType
  else if tn = int32Node then int32Type
  else if tn = stringNode then stringType
  else if tn = booleanNode then booleanType
  else anyType

/-- The symbol of `focus(viewRef: Ref<'MyView'>, durationMs: Int32): void`. -/
def focusSym : Symbol :=
  { name := "focus",
    declarations := [.methodSignature none
      [{ name := "viewRef", type := some refNode },
       { name := "durationMs", type := some int32Node }]
      (some voidNode) false] }

/-- The request of `["focus"]` against the type declaring `focusSym`. -/
def c1Info : ExportCommandInfo :=
  { typeText := "MyViewCommands", supportedCommands := ["focus"],
    getProperty := fun n => if n = "focus" then some focusSym else none,
    getTypeFromTypeNode := checker0 }

/-- The same `focus` command with its first parameter spelled
`React.Ref<'MyView'>`. -/
def focusReactSym : Symbol :=
  { name := "focus",
    declarations := [.methodSignature none
      [{ name := "viewRef", type := some reactRefNode },
       { name := "durationMs", type := some int32Node }]
      (some voidNode) false] }

/-- The request of `["focus"]` against the type declaring `focusReactSym`. -/
def goodInfo : ExportCommandInfo :=
  { typeText := "MyViewCommands", supportedCommands := ["focus"],
    getProperty := fun n => if n = "focus" then some focusReactSym else none,
    getTypeFromTypeNode := checker0 }

/-- A request naming a command absent from the type. -/
def badInfo : ExportCommandInfo :=
  { typeText := "MyViewCommands", supportedCommands := ["missing"],
    getProperty := fun _ => none,
    getTypeFromTypeNode := checker0 }

/-- A symbol with two declaration sites for the same command name. -/
def ambSym : Symbol :=
  { name := "focus",
    declarations := [.propertySignature (some voidNode) false,
                     .propertySignature (some voidNode) false] }

/-- The request of `["focus"]` where `focus` has two declaration sites. -/
def ambInfo : ExportCommandInfo :=
  { typeText := "MyViewCommands", supportedCommands := ["focus"],
    getProperty := fun n => if n = "focus" then some ambSym else none,
    getTypeFromTypeNode := checker0 }

/-- The symbol of a method whose declared return-type annotation is absent
(`focus(...)` with no `: type` written). -/
def noRetAnnSym : Symbol :=
  { name := "focus", declarations := [.methodSignature none [] none false] }

/-- The request of `["focus"]` where the declaration has no return-type
annotation: the checker resolves the absent node to `errorType`, which is
not void. -/
def noRetAnnInfo : ExportCommandInfo :=
  { typeText := "MyViewCommands", supportedCommands := ["focus"],
    getProperty := fun n => if n = "focus" then some noRetAnnSym else none,
    getTypeFromTypeNode := checker0 }

/-- The symbol of `focus(viewRef): void` whose first parameter carries no
type annotation. -/
def noFirstAnnSym : Symbol :=
  { name := "focus",
    declarations := [.methodSignature none
      [{ name := "viewRef", type := none }] (some voidNode) false] }

/-- The request of `["focus"]` where the first parameter is un-annotated:
line 61 calls `ts.isTypeReferenceNode` on the absent node and faults. -/
def noFirstAnnInfo : ExportCommandInfo :=
  { typeText := "MyViewCommands", supportedCommands := ["focus"],
    getProperty := fun n => if n = "focus" then some noFirstAnnSym else none,
    getTypeFromTypeNode := checker0 }

/-- The symbol of `focus(viewRef: React.Ref<'MyView'>, durationMs): void`
whose second parameter carries no type annotation. -/
def noParamAnnSym : Symbol :=
  { name := "focus",
    declarations := [.methodSignature none
      [{ name := "viewRef", type := some reactRefNode },
       { name := "durationMs", type := none }]
      (some voidNode) false] }

/-- The request of `["focus"]` where a later parameter is un-annotated:
its type resolves to `errorType`, matches no category, and line 88
dereferences the absent node for the message text and faults. -/
def noParamAnnInfo : ExportCommandInfo :=
  { typeText := "MyViewCommands", supportedCommands := ["focus"],
    getProperty := fun n => if n = "focus" then some noParamAnnSym else none,
    getTypeFromTypeNode := checker0 }

/-- The symbol of `focus(viewRef: React.Ref<'MyView'>, extra: number[]): void`,
whose second parameter is outside the three supported categories. -/
def unsupportedSym : Symbol :=
  { name := "focus",
    declarations := [.methodSignature none
      [{ name := "viewRef", type := some reactRefNode },
       { name := "extra", type := some arrayNode }]
      (some voidNode) false] }

/-- The request of `["focus"]` against the type declaring `unsupportedSym`. -/
def unsupportedInfo : ExportCommandInfo :=
  { typeText := "MyViewCommands", supportedCommands := ["focus"],
    getProperty := fun n => if n = "focus" then some unsupportedSym else none,
    getTypeFromTypeNode := checker0 }

/-- The symbol of `focus(viewRef: number[]): void`, whose first parameter is
not a type-reference node. -/
def nonRefSym : Symbol :=
  { name := "focus",
    declarations := [.methodSignature none
      [{ name := "viewRef", type := some arrayNode }] (some voidNode) false] }

/-- The request of `["focus"]` against the type declaring `nonRefSym`. -/
def nonRefInfo : ExportCommandInfo :=
  { typeText := "MyViewCommands", supportedCommands := ["focus"],
    getProperty := fun n => if n = "focus" then some nonRefSym else none,
    getTypeFromTypeNode := checker0 }

/-- The symbol of the generic method `focus<T>(viewRef: React.Ref<'MyView'>): void`. -/
def genericSym : Symbol :=
  { name := "focus",
    declarations := [.methodSignature (some ["T"])
      [{ name := "viewRef", type := some reactRefNode }] (some voidNode) false] }

/-- The request of `["focus"]` against the type declaring `genericSym`. -/
def genericInfo : ExportCommandInfo :=
  { typeText := "MyViewCommands", supportedCommands := ["focus"],
    getProperty := fun n => if n = "focus" then some genericSym else none,
    getTypeFromTypeNode := checker0 }

/-- The syntactic node of the callable property type
`(ref: React.Ref<'MyView'>, color: string) => void`. -/
def funcTypeNode : TypeNode := .otherType "(ref: React.Ref<'MyView'>, color: string) => void"

/-- The parameter symbol `ref` of the callable property type. -/
def refParamSym : Symbol :=
  { name := "ref", declarations := [.parameterDecl { name := "ref", type := some reactRefNode }] }

/-- The parameter symbol `color` of the callable property type. -/
def colorParamSym : Symbol :=
  { name := "color", declarations := [.parameterDecl { name := "color", type := some stringNode }] }

/-- The single call signature of the callable property type. -/
def setColorSig : Signature := .mk none voidType [refParamSym, colorParamSym]

/-- The semantic type of the callable property: one call signature. -/
def funcType : SemType := .mk false false false false [setColorSig]

/-- The syntactic node of the generic callable property type
`<T>(ref: React.Ref<'MyView'>) => void`. -/
def genFuncTypeNode : TypeNode := .otherType "<T>(ref: React.Ref<'MyView'>) => void"

/-- The generic call signature of that type. -/
def genSig : Signature := .mk (some ["T"]) voidType [refParamSym]

/-- The semantic type of the generic callable property. -/
def genFuncType : SemType := .mk false false false false [genSig]

/-- A fixture type checker extending `checker0` with the two callable
property types. -/
def checker1 : TypeNode → SemType := fun tn =>
  if tn = funcTypeNode then funcType
  else if tn = genFuncTypeNode then genFuncType
  else checker0 tn

/-- The symbol of the property `setColor` holding a generic callable type. -/
def genericPropSym : Symbol :=
  { name := "setColor", declarations := [.propertySignature (some genFuncTypeNode) false] }

/-- The request of `["setColor"]` against the type declaring `genericPropSym`. -/
def genericPropInfo : ExportCommandInfo :=
  { typeText := "MyViewCommands", supportedCommands := ["setColor"],
    getProperty := fun n => if n = "setColor" then some genericPropSym else none,
    getTypeFromTypeNode := checker1 }

/-- The symbol of `focus(viewRef: React.Ref<'MyView'>): Int32`. -/
def nonVoidSym : Symbol :=
  { name := "focus",
    declarations := [.methodSignature none
      [{ name := "viewRef", type := some reactRefNode }] (some int32Node) false] }

/-- The request of `["focus"]` against the type declaring `nonVoidSym`. -/
def nonVoidInfo : ExportCommandInfo :=
  { typeText := "MyViewCommands", supportedCommands := ["focus"],
    getProperty := fun n => if n = "focus" then some nonVoidSym else none,
    getTypeFromTypeNode := checker0 }

/-- The symbol of a property `setColor: string` (a non-callable property:
its type has no call signature). -/
def nonCallablePropSym : Symbol :=
  { name := "setColor", declarations := [.propertySignature (some stringNode) false] }

/-- The request of `["setColor"]` against the type declaring
`nonCallablePropSym`. -/
def nonCallablePropInfo : ExportCommandInfo :=
  { typeText := "MyViewCommands", supportedCommands := ["setColor"],
    getProperty := fun n => if n = "setColor" then some nonCallablePropSym else none,
    getTypeFromTypeNode := checker1 }

/-- The symbol of the property
`setColor: (ref: React.Ref<'MyView'>, color: string) => void`. -/
def setColorSym : Symbol :=
  { name := "setColor", declarations := [.propertySignature (some funcTypeNode) false] }

/-- The request of `["setColor"]` against the type declaring `setColorSym`. -/
def propInfo : ExportCommandInfo :=
  { typeText := "MyViewCommands", supportedCommands := ["setColor"],
    getProperty := fun n => if n = "setColor" then some setColorSym else none,
    getTypeFromTypeNode := checker1 }

/-- The symbol of the optional method
`focus?(viewRef: React.Ref<'MyView'>, durationMs: Int32): void`. -/
def optSym : Symbol :=
  { name := "focus",
    declarations := [.methodSignature none
      [{ name := "viewRef", type := some reactRefNode },
       { name := "durationMs", type := some int32Node }]
      (some voidNode) true] }

/-- The request of `["focus"]` against the type declaring `optSym`. -/
def optInfo : ExportCommandInfo :=
  { typeText := "MyViewCommands", supportedCommands := ["focus"],
    getProperty := fun n => if n = "focus" then some optSym else none,
    getTypeFromTypeNode := checker0 }

/-- A parameter declaration carrying an explicit type annotation. -/
def paramAnnotated (p : ParamDecl) : Prop := p.type ≠ none

/-- A declaration all of whose parameter type annotations are present:
explicitly typed parameters for direct callables, and for a property every
parameter declaration exposed through the property type's call signatures
explicitly typed.  Return-type and property-type annotations need not be
present: an absent one resolves to `errorType` and flows into the
documented `NonVoidReturn` or `NotAFunction` failures instead of faulting. -/
def declParamsAnnotated (checker : TypeNode → SemType) : Decl → Prop
  | .methodSignature _ ps _ _ => ∀ p ∈ ps, paramAnnotated p
  | .callSignature _ ps _ _ => ∀ p ∈ ps, paramAnnotated p
  | .propertySignature t _ =>
    ∀ tn, t = some tn → ∀ sig ∈ (checker tn).getCallSignatures,
      ∀ s ∈ Signature.parameters sig, ∀ p, Symbol.declarations s = [.parameterDecl p] →
        paramAnnotated p
  | .parameterDecl _ => True
  | .otherDecl _ => True

/-- Every parameter reachable through the request's type is annotated. -/
def paramsAnnotated (info : ExportCommandInfo) : Prop :=
  ∀ name sym, info.getProperty name = some sym →
    ∀ d ∈ sym.declarations, declParamsAnnotated info.getTypeFromTypeNode d

/-! ### Lemmas and claim theorems -/

/-- A successfully parsed command carries the requested name. -/
theorem parseOneCommand_name (info : ExportCommandInfo) (c : String) (s : CommandTypeShape)
    (h : parseOneCommand info c = .ok s) : s.name = c := by
  unfold parseOneCommand at h
  repeat' split at h
  all_goals cases h
  rfl

/-- A successful run of the loop yields one shape per requested name, in
request order. -/
theorem parseCommandsAux_length_names (info : ExportCommandInfo) :
    ∀ (l : List String) (shapes : List CommandTypeShape),
      parseCommandsAux info l = .ok shapes →
      shapes.length = l.length ∧
      ∀ (i : Nat) (h1 : i < shapes.length) (h2 : i < l.length),
        (shapes.get ⟨i, h1⟩).name = l.get ⟨i, h2⟩ := by
  intro l
  induction l with
  | nil =>
    intro shapes h
    cases h
    exact ⟨rfl, fun i h1 _ => absurd h1 (by simp)⟩
  | cons c rest ih =>
    intro shapes h
    unfold parseCommandsAux at h
    split at h
    · cases h
    next shape hshape =>
      split at h
      · cases h
      next shapes' hrest =>
        cases h
        obtain ⟨hl, hn⟩ := ih shapes' hrest
        refine ⟨by simp [hl], ?_⟩
        intro i h1 h2
        cases i with
        | zero => simpa using parseOneCommand_name info c shape hshape
        | succ j => exact hn j (by simpa using h1) (by simpa using h2)

/-- A successful run of the loop means every requested name parsed. -/
theorem parseCommandsAux_ok_each (info : ExportCommandInfo) :
    ∀ (l : List String) (shapes : List CommandTypeShape),
      parseCommandsAux info l = .ok shapes →
      ∀ c ∈ l, ∃ s, parseOneCommand info c = .ok s := by
  intro l
  induction l with
  | nil => intro shapes _ c hc; cases hc
  | cons c0 rest ih =>
    intro shapes h c hc
    unfold parseCommandsAux at h
    split at h
    · cases h
    next shape hshape =>
      split at h
      · cases h
      next shapes' hrest =>
        cases h
        rcases List.mem_cons.mp hc with hc | hc
        · exact ⟨shape, hc ▸ hshape⟩
        · exact ih shapes' hrest c hc

/-- C1: on the request `["focus"]` where `focus` is declared as
`focus(viewRef: Ref<'MyView'>, durationMs: Int32): void`, `parseCommands`
returns exactly one shape
`{name := "focus", optional := false, params := [durationMs : Int32]}`:
the first-parameter check accepts the `Ref<'MyView'>` shape (its type
argument is a LiteralTypeNode, on which `ts.isStringLiteral` answers
false, so the throw clause of lines 62–65 cannot fire on a type-reference
node) and the ref parameter is dropped from the emitted list. -/
theorem C1_focus_ref_scenario :
    parseCommands c1Info =
      .ok [{ name := "focus", optional := false,
             params := [{ name := "durationMs", tag := .int32Tag }] }] :=
  rfl

/-- C2: a successful call returns exactly one shape per requested name, in
request order, with output length equal to request length; and whenever some
requested name fails any stage, the whole call fails with an error and no
sequence is returned. -/
theorem C2_one_shape_per_name_in_order (info : ExportCommandInfo) :
    (∀ shapes, parseCommands info = .ok shapes →
      shapes.length = info.supportedCommands.length ∧
      ∀ (i : Nat) (h1 : i < shapes.length) (h2 : i < info.supportedCommands.length),
        (shapes.get ⟨i, h1⟩).name = info.supportedCommands.get ⟨i, h2⟩) ∧
    ((∃ c ∈ info.supportedCommands, ∃ e, parseOneCommand info c = .error e) →
      ∃ e, parseCommands info = .error e) := by
  constructor
  · intro shapes h
    exact parseCommandsAux_length_names info info.supportedCommands shapes h
  · rintro ⟨c, hc, e, he⟩
    cases hp : parseCommands info with
    | error e' => exact ⟨e', rfl⟩
    | ok shapes =>
      obtain ⟨s, hs⟩ := parseCommandsAux_ok_each info info.supportedCommands shapes hp c hc
      rw [he] at hs
      cases hs

/-- Witness for C2 at the one-command request that succeeds and at a request
naming an absent command, which fails as a whole. -/
theorem C2_one_shape_per_name_in_order_witness :
    [({ name := "focus", optional := false,
        params := [{ name := "durationMs", tag := ParamTypeTag.int32Tag }] } :
      CommandTypeShape)].length = goodInfo.supportedCommands.length ∧
    ∃ e, parseCommands badInfo = .error e :=
  ⟨((C2_one_shape_per_name_in_order goodInfo).1 _ rfl).1,
   (C2_one_shape_per_name_in_order badInfo).2
     ⟨"missing", (by simp [badInfo]), Err.memberNotFound "missing" "MyViewCommands", rfl⟩⟩

/-- C3: a requested command whose member symbol has zero or more than one
declaration site fails, and the failure is the generic not-a-function error
with message `... should be a function.` — multiple declarations are never
disambiguated. -/
theorem C3_ambiguous_declarations_not_a_function (info : ExportCommandInfo) (name : String)
    (sym : Symbol) (hsym : info.getProperty name = some sym)
    (hdecls : sym.declarations.length ≠ 1) :
    parseOneCommand info name = .error (.notAFunction name info.typeText) ∧
    (Err.notAFunction name info.typeText).message =
      "Command " ++ name ++ " in type " ++ info.typeText ++ " should be a function." := by
  refine ⟨?_, rfl⟩
  have hres : resolveMember info.getTypeFromTypeNode name info.typeText sym =
      .error (.notAFunction name info.typeText) := by
    rcases hd : sym.declarations with _ | ⟨d, _ | ⟨d2, t⟩⟩
    · unfold resolveMember; rw [hd]
    · rw [hd] at hdecls; simp at hdecls
    · unfold resolveMember; rw [hd]
  unfold parseOneCommand
  simp only [hsym, hres]

/-- Witness for C3 at a command with two declaration sites. -/
theorem C3_ambiguous_declarations_witness :
    parseOneCommand ambInfo "focus" = .error (.notAFunction "focus" "MyViewCommands") :=
  (C3_ambiguous_declarations_not_a_function ambInfo "focus" ambSym rfl (by decide)).1

/-- A mapped parameter keeps the source-level parameter name. -/
theorem mapParam_name (checker : TypeNode → SemType) (cmd ttext : String)
    (p : ParamDecl) (s : CommandParamShape)
    (h : mapParam checker cmd ttext p = .ok s) : s.name = p.name := by
  unfold mapParam at h
  repeat' split at h
  all_goals cases h
  all_goals rfl

/-- A successful parameter mapping preserves length and names in order. -/
theorem mapParams_length_names (checker : TypeNode → SemType) (cmd ttext : String) :
    ∀ (ps : List ParamDecl) (out : List CommandParamShape),
      mapParams checker cmd ttext ps = .ok out →
      out.length = ps.length ∧
      ∀ (i : Nat) (h1 : i < out.length) (h2 : i < ps.length),
        (out.get ⟨i, h1⟩).name = (ps.get ⟨i, h2⟩).name := by
  intro ps
  induction ps with
  | nil =>
    intro out h
    cases h
    exact ⟨rfl, fun i h1 _ => absurd h1 (by simp)⟩
  | cons p rest ih =>
    intro out h
    unfold mapParams at h
    split at h
    · cases h
    next s hs =>
      split at h
      · cases h
      next ss hss =>
        cases h
        obtain ⟨hl, hn⟩ := ih ss hss
        refine ⟨by simp [hl], ?_⟩
        intro i h1 h2
        cases i with
        | zero => simpa using mapParam_name checker cmd ttext p s hs
        | succ j => exact hn j (by simpa using h1) (by simpa using h2)

/-- C4: each non-first parameter is classified in the fixed priority
string → boolean → Int32; a type outside the three categories fails the
call with `UnsupportedParamType` naming the parameter, the command and the
declared type text; and the emitted list preserves declaration order with
source-level parameter names. -/
theorem C4_param_classification (info : ExportCommandInfo) (name : String) :
    (∀ (p : ParamDecl) (tn : TypeNode), p.type = some tn →
      (isString (info.getTypeFromTypeNode tn) = true →
        mapParam info.getTypeFromTypeNode name info.typeText p =
          .ok { name := p.name, tag := .stringTag }) ∧
      (isString (info.getTypeFromTypeNode tn) = false →
        isBoolean (info.getTypeFromTypeNode tn) = true →
        mapParam info.getTypeFromTypeNode name info.typeText p =
          .ok { name := p.name, tag := .booleanTag }) ∧
      (isString (info.getTypeFromTypeNode tn) = false →
        isBoolean (info.getTypeFromTypeNode tn) = false →
        isInt32 (info.getTypeFromTypeNode tn) = true →
        mapParam info.getTypeFromTypeNode name info.typeText p =
          .ok { name := p.name, tag := .int32Tag }) ∧
      (isString (info.getTypeFromTypeNode tn) = false →
        isBoolean (info.getTypeFromTypeNode tn) = false →
        isInt32 (info.getTypeFromTypeNode tn) = false →
        mapParam info.getTypeFromTypeNode name info.typeText p =
          .error (.unsupportedParamType p.name name info.typeText tn.getText))) ∧
    (∀ (ps : List ParamDecl) (out : List CommandParamShape),
      mapParams info.getTypeFromTypeNode name info.typeText ps = .ok out →
      out.length = ps.length ∧
      ∀ (i : Nat) (h1 : i < out.length) (h2 : i < ps.length),
        (out.get ⟨i, h1⟩).name = (ps.get ⟨i, h2⟩).name) ∧
    (∀ (sym : Symbol) (d : Decl) (r : SemType) (p0 : ParamDecl) (rest : List ParamDecl)
        (tn0 : TypeNode) (e : Err),
      info.getProperty name = some sym →
      resolveMember info.getTypeFromTypeNode name info.typeText sym = .ok (d, r, p0 :: rest) →
      isVoid r = true → p0.type = some tn0 →
      (!(tn0.isTypeReferenceNode) || refCheckFails tn0) = false →
      mapParams info.getTypeFromTypeNode name info.typeText rest = .error e →
      parseOneCommand info name = .error e) := by
  refine ⟨?_, mapParams_length_names info.getTypeFromTypeNode name info.typeText, ?_⟩
  · intro p tn hp
    refine ⟨?_, ?_, ?_, ?_⟩
    · intro h1; simp [mapParam, hp, h1]
    · intro h1 h2; simp [mapParam, hp, h1, h2]
    · intro h1 h2 h3; simp [mapParam, hp, h1, h2, h3]
    · intro h1 h2 h3; simp [mapParam, hp, h1, h2, h3]
  · intro sym d r p0 rest tn0 e hsym hres hvoid hp0 href hmap
    unfold parseOneCommand
    simp only [hsym, hres, hvoid, hp0, href, hmap]
    simp

/-- Witness for C4 at a string-typed parameter and at a command with an
unsupported `number[]` parameter. -/
theorem C4_param_classification_witness :
    mapParam goodInfo.getTypeFromTypeNode "focus" goodInfo.typeText
        { name := "color", type := some stringNode } =
      .ok { name := "color", tag := .stringTag } ∧
    parseOneCommand unsupportedInfo "focus" =
      .error (.unsupportedParamType "extra" "focus" "MyViewCommands" "number[]") :=
  ⟨((C4_param_classification goodInfo "focus").1
      { name := "color", type := some stringNode } stringNode rfl).1 rfl,
   (C4_param_classification unsupportedInfo "focus").2.2 unsupportedSym
      (.methodSignature none
        [{ name := "viewRef", type := some reactRefNode },
         { name := "extra", type := some arrayNode }] (some voidNode) false)
      voidType { name := "viewRef", type := some reactRefNode }
      [{ name := "extra", type := some arrayNode }] reactRefNode
      (.unsupportedParamType "extra" "focus" "MyViewCommands" "number[]")
      rfl rfl rfl rfl rfl rfl⟩

/-- C5: a command that resolves, returns void and has at least one
parameter fails with `InvalidRefParameter` (message
`... should be React.Ref<'NAME'>.`) when the declared type of its first
parameter is not a type-reference node. -/
theorem C5_first_param_not_type_reference (info : ExportCommandInfo) (name : String)
    (sym : Symbol) (d : Decl) (r : SemType) (p0 : ParamDecl) (rest : List ParamDecl)
    (tn0 : TypeNode)
    (hsym : info.getProperty name = some sym)
    (hres : resolveMember info.getTypeFromTypeNode name info.typeText sym = .ok (d, r, p0 :: rest))
    (hvoid : isVoid r = true)
    (hp0 : p0.type = some tn0)
    (hnotref : tn0.isTypeReferenceNode = false) :
    parseOneCommand info name = .error (.invalidRefParameter name info.typeText) ∧
    (Err.invalidRefParameter name info.typeText).message =
      "The first parameter in command " ++ name ++ " in type " ++ info.typeText ++
        " should be React.Ref<'NAME'>." := by
  refine ⟨?_, rfl⟩
  unfold parseOneCommand
  simp only [hsym, hres, hvoid, hp0, hnotref]
  simp

/-- Witness for C5 at a first parameter typed `number[]`. -/
theorem C5_first_param_not_type_reference_witness :
    parseOneCommand nonRefInfo "focus" = .error (.invalidRefParameter "focus" "MyViewCommands") :=
  (C5_first_param_not_type_reference nonRefInfo "focus" nonRefSym
    (.methodSignature none [{ name := "viewRef", type := some arrayNode }] (some voidNode) false)
    voidType { name := "viewRef", type := some arrayNode } [] arrayNode
    rfl rfl rfl rfl rfl).1

/-- A non-empty type-parameter list trips the checks of lines 24 and 34. -/
theorem hasTypeParams_of_ne (tps : List String) (h : tps ≠ []) :
    hasTypeParams (some tps) = true := by
  simp [hasTypeParams, h]

/-- C6: a command resolved through either declaration shape — a direct
method or call-signature declaration, or a property whose type has a single
call signature — fails with `GenericNotAllowed` (message
`... should not be generic.`) when the callable declares a non-empty list
of type parameters. -/
theorem C6_generic_not_allowed (info : ExportCommandInfo) (name : String) :
    (∀ (sym : Symbol) (tps : List String) (ps : List ParamDecl) (rt : Option TypeNode) (q : Bool),
      info.getProperty name = some sym →
      sym.declarations = [.methodSignature (some tps) ps rt q] → tps ≠ [] →
      parseOneCommand info name = .error (.genericNotAllowed name info.typeText)) ∧
    (∀ (sym : Symbol) (tps : List String) (ps : List ParamDecl) (rt : Option TypeNode) (q : Bool),
      info.getProperty name = some sym →
      sym.declarations = [.callSignature (some tps) ps rt q] → tps ≠ [] →
      parseOneCommand info name = .error (.genericNotAllowed name info.typeText)) ∧
    (∀ (sym : Symbol) (tn : TypeNode) (q : Bool) (sig : Signature) (tps : List String),
      info.getProperty name = some sym →
      sym.declarations = [.propertySignature (some tn) q] →
      (info.getTypeFromTypeNode tn).getCallSignatures = [sig] →
      sig.typeParameters = some tps → tps ≠ [] →
      parseOneCommand info name = .error (.genericNotAllowed name info.typeText)) ∧
    (Err.genericNotAllowed name info.typeText).message =
      "Command " ++ name ++ " in type " ++ info.typeText ++ " should not be generic." := by
  refine ⟨?_, ?_, ?_, rfl⟩
  · intro sym tps ps rt q hsym hdecl htps
    have hres : resolveMember info.getTypeFromTypeNode name info.typeText sym =
        .error (.genericNotAllowed name info.typeText) := by
      unfold resolveMember
      rw [hdecl]
      simp [hasTypeParams_of_ne tps htps]
    unfold parseOneCommand
    simp only [hsym, hres]
  · intro sym tps ps rt q hsym hdecl htps
    have hres : resolveMember info.getTypeFromTypeNode name info.typeText sym =
        .error (.genericNotAllowed name info.typeText) := by
      unfold resolveMember
      rw [hdecl]
      simp [hasTypeParams_of_ne tps htps]
    unfold parseOneCommand
    simp only [hsym, hres]
  · intro sym tn q sig tps hsym hdecl hsigs hstps htps
    have hres : resolveMember info.getTypeFromTypeNode name info.typeText sym =
        .error (.genericNotAllowed name info.typeText) := by
      unfold resolveMember
      rw [hdecl]
      simp [getTypeFromOptNode, hsigs, hstps, hasTypeParams_of_ne tps htps]
    unfold parseOneCommand
    simp only [hsym, hres]

/-- C7: a command whose resolved return type is not the void type fails
with `NonVoidReturn` (message `... should return void.`). -/
theorem C7_non_void_return (info : ExportCommandInfo) (name : String) (sym : Symbol)
    (d : Decl) (r : SemType) (ps : List ParamDecl)
    (hsym : info.getProperty name = some sym)
    (hres : resolveMember info.getTypeFromTypeNode name info.typeText sym = .ok (d, r, ps))
    (hnv : isVoid r = false) :
    parseOneCommand info name = .error (.nonVoidReturn name info.typeText) ∧
    (Err.nonVoidReturn name info.typeText).message =
      "Command " ++ name ++ " in type " ++ info.typeText ++ " should return void." := by
  refine ⟨?_, rfl⟩
  unfold parseOneCommand
  simp only [hsym, hres, hnv]
  simp

/-- Witness for C6 at a generic method and at a property holding a generic
callable type. -/
theorem C6_generic_not_allowed_witness :
    parseOneCommand genericInfo "focus" = .error (.genericNotAllowed "focus" "MyViewCommands") ∧
    parseOneCommand genericPropInfo "setColor" =
      .error (.genericNotAllowed "setColor" "MyViewCommands") :=
  ⟨(C6_generic_not_allowed genericInfo "focus").1 genericSym ["T"]
      [{ name := "viewRef", type := some reactRefNode }] (some voidNode) false
      rfl rfl (List.cons_ne_nil "T" []),
   (C6_generic_not_allowed genericPropInfo "setColor").2.2.1 genericPropSym genFuncTypeNode
      false genSig ["T"] rfl rfl rfl rfl (List.cons_ne_nil "T" [])⟩

/-- Witness for C7 at a command declared to return `Int32`. -/
theorem C7_non_void_return_witness :
    parseOneCommand nonVoidInfo "focus" = .error (.nonVoidReturn "focus" "MyViewCommands") :=
  (C7_non_void_return nonVoidInfo "focus" nonVoidSym
    (.methodSignature none [{ name := "viewRef", type := some reactRefNode }] (some int32Node) false)
    int32Type [{ name := "viewRef", type := some reactRefNode }]
    rfl rfl rfl).1

/-- C8: a command whose single declaration is a property resolves only
through the property's type: with exactly one call signature that
signature's parameters and return type are used; with zero or several call
signatures extraction fails with `NotAFunction`. -/
theorem C8_property_single_call_signature (info : ExportCommandInfo) (name : String) :
    (∀ (sym : Symbol) (tn : TypeNode) (q : Bool),
      info.getProperty name = some sym →
      sym.declarations = [.propertySignature (some tn) q] →
      (info.getTypeFromTypeNode tn).getCallSignatures.length ≠ 1 →
      parseOneCommand info name = .error (.notAFunction name info.typeText)) ∧
    (∀ (sym : Symbol) (tn : TypeNode) (q : Bool) (sig : Signature) (ps : List ParamDecl),
      sym.declarations = [.propertySignature (some tn) q] →
      (info.getTypeFromTypeNode tn).getCallSignatures = [sig] →
      hasTypeParams sig.typeParameters = false →
      resolveParams name info.typeText sig.parameters = .ok ps →
      resolveMember info.getTypeFromTypeNode name info.typeText sym =
        .ok (.propertySignature (some tn) q, sig.getReturnType, ps)) := by
  constructor
  · intro sym tn q hsym hdecl hsig
    have hres : resolveMember info.getTypeFromTypeNode name info.typeText sym =
        .error (.notAFunction name info.typeText) := by
      unfold resolveMember
      rw [hdecl]
      rcases hs : (info.getTypeFromTypeNode tn).getCallSignatures with _ | ⟨sig, _ | ⟨sig2, t⟩⟩
      · simp [getTypeFromOptNode, hs]
      · rw [hs] at hsig; simp at hsig
      · simp [getTypeFromOptNode, hs]
    unfold parseOneCommand
    simp only [hsym, hres]
  · intro sym tn q sig ps hdecl hsig htps hps
    unfold resolveMember
    rw [hdecl]
    simp [getTypeFromOptNode, hsig, htps, hps]

/-- Witness for C8 at a non-callable property and at a single-signature
callable property. -/
theorem C8_property_single_call_signature_witness :
    parseOneCommand nonCallablePropInfo "setColor" =
      .error (.notAFunction "setColor" "MyViewCommands") ∧
    resolveMember propInfo.getTypeFromTypeNode "setColor" propInfo.typeText setColorSym =
      .ok (.propertySignature (some funcTypeNode) false, setColorSig.getReturnType,
        [{ name := "ref", type := some reactRefNode },
         { name := "color", type := some stringNode }]) :=
  ⟨(C8_property_single_call_signature nonCallablePropInfo "setColor").1
      nonCallablePropSym stringNode false rfl rfl (by decide),
   (C8_property_single_call_signature propInfo "setColor").2
      setColorSym funcTypeNode false setColorSig
      [{ name := "ref", type := some reactRefNode },
       { name := "color", type := some stringNode }]
      rfl rfl rfl rfl⟩

/-- C9: the emitted optional flag equals the presence of the optional
marker (`questionToken`) on the resolved declaration. -/
theorem C9_optional_flag (info : ExportCommandInfo) (name : String) (sym : Symbol)
    (d : Decl) (r : SemType) (ps : List ParamDecl) (shape : CommandTypeShape)
    (hsym : info.getProperty name = some sym)
    (hres : resolveMember info.getTypeFromTypeNode name info.typeText sym = .ok (d, r, ps))
    (hok : parseOneCommand info name = .ok shape) :
    shape.optional = d.hasQuestionToken := by
  unfold parseOneCommand at hok
  simp only [hsym, hres] at hok
  repeat' split at hok
  all_goals cases hok
  rfl

/-- Witness for C9 at an optional method declaration. -/
theorem C9_optional_flag_witness :
    (CommandTypeShape.mk "focus" true [{ name := "durationMs", tag := .int32Tag }]).optional =
      Decl.hasQuestionToken (.methodSignature none
        [{ name := "viewRef", type := some reactRefNode },
         { name := "durationMs", type := some int32Node }] (some voidNode) true) :=
  C9_optional_flag optInfo "focus" optSym
    (.methodSignature none
      [{ name := "viewRef", type := some reactRefNode },
       { name := "durationMs", type := some int32Node }] (some voidNode) true)
    voidType
    [{ name := "viewRef", type := some reactRefNode },
     { name := "durationMs", type := some int32Node }]
    (CommandTypeShape.mk "focus" true [{ name := "durationMs", tag := .int32Tag }])
    rfl rfl rfl

/-- A failing parameter-symbol resolution raises `should be a parameter`. -/
theorem resolveParamSymbol_error_shape (cmd ttext : String) (s : Symbol) (e : Err)
    (h : resolveParamSymbol cmd ttext s = .error e) :
    e = .shouldBeParameter s.name cmd ttext := by
  unfold resolveParamSymbol at h
  split at h
  · cases h
  · cases h; rfl

/-- A successful parameter-symbol resolution returns the symbol's single
parameter declaration. -/
theorem resolveParamSymbol_ok_shape (cmd ttext : String) (s : Symbol) (p : ParamDecl)
    (h : resolveParamSymbol cmd ttext s = .ok p) :
    s.declarations = [.parameterDecl p] := by
  unfold resolveParamSymbol at h
  split at h
  next p' heq => cases h; exact heq
  next => cases h

/-- A failing parameter-list resolution raises `should be a parameter`. -/
theorem resolveParams_error_shape (cmd ttext : String) :
    ∀ (syms : List Symbol) (e : Err), resolveParams cmd ttext syms = .error e →
      ∃ pn, e = .shouldBeParameter pn cmd ttext := by
  intro syms
  induction syms with
  | nil => intro e h; cases h
  | cons s rest ih =>
    intro e h
    unfold resolveParams at h
    split at h
    next e1 h1 =>
      cases h
      exact ⟨s.name, resolveParamSymbol_error_shape cmd ttext s _ h1⟩
    next p h1 =>
      split at h
      next e2 h2 => cases h; exact ih _ h2
      next => cases h

/-- Every parameter declaration returned by a successful parameter-list
resolution is the single declaration of one of the parameter symbols. -/
theorem resolveParams_ok_mem (cmd ttext : String) :
    ∀ (syms : List Symbol) (ps : List ParamDecl), resolveParams cmd ttext syms = .ok ps →
      ∀ p ∈ ps, ∃ s ∈ syms, Symbol.declarations s = [.parameterDecl p] := by
  intro syms
  induction syms with
  | nil => intro ps h p hp; cases h; cases hp
  | cons s rest ih =>
    intro ps h p hp
    unfold resolveParams at h
    split at h
    · cases h
    next p0 h1 =>
      split at h
      · cases h
      next ps' h2 =>
        cases h
        rcases List.mem_cons.mp hp with hp | hp
        · subst hp
          exact ⟨s, List.mem_cons_self s rest, resolveParamSymbol_ok_shape cmd ttext s p h1⟩
        · obtain ⟨s', hs', hdd⟩ := ih ps' h2 p hp
          exact ⟨s', List.mem_cons_of_mem s hs', hdd⟩

/-- Classification of one parameter only faults on an absent annotation. -/
theorem mapParam_fault (checker : TypeNode → SemType) (cmd ttext : String) (p : ParamDecl)
    (h : mapParam checker cmd ttext p = .error .fault) : p.type = none := by
  unfold mapParam at h
  split at h
  next heq => exact heq
  next tn heq =>
    repeat' split at h
    all_goals exact absurd h (by simp)

/-- Classification of a parameter list only faults on an absent annotation. -/
theorem mapParams_fault (checker : TypeNode → SemType) (cmd ttext : String) :
    ∀ (ps : List ParamDecl), mapParams checker cmd ttext ps = .error .fault →
      ∃ p ∈ ps, p.type = none := by
  intro ps
  induction ps with
  | nil => intro h; cases h
  | cons p rest ih =>
    intro h
    unfold mapParams at h
    split at h
    next e1 h1 =>
      cases h
      exact ⟨p, List.mem_cons_self p rest, mapParam_fault checker cmd ttext p h1⟩
    next s h1 =>
      split at h
      next e2 h2 =>
        cases h
        obtain ⟨q, hq, hq2⟩ := ih h2
        exact ⟨q, List.mem_cons_of_mem p hq, hq2⟩
      next => cases h

/-- Parameter-list resolution never faults: its only error is
`should be a parameter`. -/
theorem resolveParams_no_fault (cmd ttext : String) (syms : List Symbol) :
    resolveParams cmd ttext syms ≠ .error .fault := by
  intro h
  obtain ⟨pn, hpn⟩ := resolveParams_error_shape cmd ttext syms .fault h
  cases hpn

/-- Member resolution never faults: the absent annotations it can meet
resolve to `errorType` and flow into documented errors. -/
theorem resolveMember_no_fault (checker : TypeNode → SemType) (cmd ttext : String)
    (sym : Symbol) : resolveMember checker cmd ttext sym ≠ .error .fault := by
  intro h
  unfold resolveMember at h
  repeat' split at h
  all_goals try (cases h; exact resolveParams_no_fault cmd ttext _ (by assumption))
  all_goals exact absurd h (by simp)

/-- Every parameter declaration returned by member resolution of a
parameter-annotated symbol is annotated. -/
theorem resolveMember_params_annotated (checker : TypeNode → SemType) (cmd ttext : String)
    (sym : Symbol) (hann : ∀ d ∈ sym.declarations, declParamsAnnotated checker d)
    (d : Decl) (r : SemType) (ps : List ParamDecl)
    (hres : resolveMember checker cmd ttext sym = .ok (d, r, ps)) :
    ∀ p ∈ ps, paramAnnotated p := by
  rcases hd : sym.declarations with _ | ⟨decl, _ | ⟨d2, rest2⟩⟩
  · rw [show resolveMember checker cmd ttext sym = .error (.notAFunction cmd ttext) by
      unfold resolveMember; rw [hd]] at hres
    cases hres
  swap
  · rw [show resolveMember checker cmd ttext sym = .error (.notAFunction cmd ttext) by
      unfold resolveMember; rw [hd]] at hres
    cases hres
  have hda : declParamsAnnotated checker decl :=
    hann decl (by rw [hd]; exact List.mem_singleton.mpr rfl)
  cases decl with
  | methodSignature tps ps0 rt q =>
    cases htp : hasTypeParams tps with
    | true =>
      rw [show resolveMember checker cmd ttext sym = .error (.genericNotAllowed cmd ttext) by
        unfold resolveMember; rw [hd]; simp [htp]] at hres
      cases hres
    | false =>
      rw [show resolveMember checker cmd ttext sym =
          .ok (.methodSignature tps ps0 rt q, getTypeFromOptNode checker rt, ps0) by
        unfold resolveMember; rw [hd]; simp [htp]] at hres
      cases hres
      exact hda
  | callSignature tps ps0 rt q =>
    cases htp : hasTypeParams tps with
    | true =>
      rw [show resolveMember checker cmd ttext sym = .error (.genericNotAllowed cmd ttext) by
        unfold resolveMember; rw [hd]; simp [htp]] at hres
      cases hres
    | false =>
      rw [show resolveMember checker cmd ttext sym =
          .ok (.callSignature tps ps0 rt q, getTypeFromOptNode checker rt, ps0) by
        unfold resolveMember; rw [hd]; simp [htp]] at hres
      cases hres
      exact hda
  | propertySignature t q =>
    rcases htn : t with _ | tn
    · rw [show resolveMember checker cmd ttext sym = .error (.notAFunction cmd ttext) by
        unfold resolveMember
        rw [hd, htn]
        simp [getTypeFromOptNode, errorType, SemType.getCallSignatures]] at hres
      cases hres
    rcases hs : (checker tn).getCallSignatures with _ | ⟨sig, _ | ⟨sig2, sigs⟩⟩
    · rw [show resolveMember checker cmd ttext sym = .error (.notAFunction cmd ttext) by
        unfold resolveMember; rw [hd, htn]; simp [getTypeFromOptNode, hs]] at hres
      cases hres
    swap
    · rw [show resolveMember checker cmd ttext sym = .error (.notAFunction cmd ttext) by
        unfold resolveMember; rw [hd, htn]; simp [getTypeFromOptNode, hs]] at hres
      cases hres
    cases htp : hasTypeParams sig.typeParameters with
    | true =>
      rw [show resolveMember checker cmd ttext sym = .error (.genericNotAllowed cmd ttext) by
        unfold resolveMember; rw [hd, htn]; simp [getTypeFromOptNode, hs, htp]] at hres
      cases hres
    | false =>
      rcases hrp : resolveParams cmd ttext (Signature.parameters sig) with e | ps1
      · rw [show resolveMember checker cmd ttext sym = .error e by
          unfold resolveMember; rw [hd, htn]; simp [getTypeFromOptNode, hs, htp, hrp]] at hres
        cases hres
      · rw [show resolveMember checker cmd ttext sym =
            .ok (.propertySignature (some tn) q, sig.getReturnType, ps1) by
          unfold resolveMember; rw [hd, htn]; simp [getTypeFromOptNode, hs, htp, hrp]] at hres
        cases hres
        intro p hp
        obtain ⟨s, hsmem, hsdecl⟩ :=
          resolveParams_ok_mem cmd ttext (Signature.parameters sig) _ hrp p hp
        exact hda tn htn sig (by rw [hs]; exact List.mem_singleton.mpr rfl) s hsmem p hsdecl
  | parameterDecl p =>
    rw [show resolveMember checker cmd ttext sym = .error (.notAFunction cmd ttext) by
      unfold resolveMember; rw [hd]] at hres
    cases hres
  | otherDecl s =>
    rw [show resolveMember checker cmd ttext sym = .error (.notAFunction cmd ttext) by
      unfold resolveMember; rw [hd]] at hres
    cases hres

/-- One command of a parameter-annotated request never faults. -/
theorem parseOneCommand_no_fault (info : ExportCommandInfo) (hann : paramsAnnotated info)
    (name : String) : parseOneCommand info name ≠ .error .fault := by
  intro h
  unfold parseOneCommand at h
  split at h
  · cases h
  next sym hp =>
    split at h
    next e hr =>
      cases h
      exact resolveMember_no_fault info.getTypeFromTypeNode name info.typeText sym hr
    next d r ps hr =>
      have hpsann := resolveMember_params_annotated info.getTypeFromTypeNode name info.typeText
        sym (hann name sym hp) d r ps hr
      split at h
      · cases h
      · split at h
        · cases h
        next p0 rest =>
          split at h
          next hp0 => exact (hpsann p0 (List.mem_cons_self p0 rest)) hp0
          next tn0 hp0 =>
            split at h
            · cases h
            · split at h
              next e hm =>
                cases h
                obtain ⟨pq, hq, hqnone⟩ := mapParams_fault info.getTypeFromTypeNode name
                  info.typeText rest hm
                exact (hpsann pq (List.mem_cons_of_mem p0 hq)) hqnone
              next => cases h

/-- The loop never faults on a parameter-annotated request. -/
theorem parseCommandsAux_no_fault (info : ExportCommandInfo) (hann : paramsAnnotated info) :
    ∀ l : List String, parseCommandsAux info l ≠ .error .fault := by
  intro l
  induction l with
  | nil => intro h; cases h
  | cons c rest ih =>
    intro h
    unfold parseCommandsAux at h
    split at h
    next e h1 =>
      cases h
      exact parseOneCommand_no_fault info hann c h1
    next shape h1 =>
      split at h
      next e h2 => cases h; exact ih h2
      next => cases h

/-- C10 counterexample: the claim's example of a method-signature member
with no declared return-type node does not fault: the absent node resolves
to the checker's `errorType`, which is not void, and the call raises the
documented `NonVoidReturn` error, not a fault. -/
theorem C10_missing_return_annotation_counterexample :
    parseCommands noRetAnnInfo = .error (.nonVoidReturn "focus" "MyViewCommands") ∧
    Err.nonVoidReturn "focus" "MyViewCommands" ≠ Err.fault :=
  ⟨rfl, by decide⟩

/-- C10 (amended): `parseCommands` stays within the documented error
taxonomy only under the precondition that every parameter carries an
explicit type annotation.  Return-type annotations are not needed: an
absent one resolves to `errorType` and raises the documented
`NonVoidReturn`.  A request whose first parameter lacks an annotation
faults at line 61 (`ts.isTypeReferenceNode` on the absent node), and one
whose later parameter lacks an annotation faults at line 88
(`param.type.getText()` on the absent node). -/
theorem C10_param_annotation_precondition :
    (∀ info : ExportCommandInfo, paramsAnnotated info →
      parseCommands info ≠ .error .fault) ∧
    parseCommands noRetAnnInfo = .error (.nonVoidReturn "focus" "MyViewCommands") ∧
    parseCommands noFirstAnnInfo = .error .fault ∧
    parseCommands noParamAnnInfo = .error .fault :=
  ⟨fun info hann => parseCommandsAux_no_fault info hann info.supportedCommands, rfl, rfl, rfl⟩

/-- Witness for C10 at the parameter-annotated request `goodInfo`. -/
theorem C10_param_annotation_precondition_witness :
    parseCommands goodInfo ≠ .error .fault := by
  refine C10_param_annotation_precondition.1 goodInfo ?_
  intro name sym h
  by_cases hn : name = "focus"
  · subst hn
    simp only [goodInfo] at h
    simp at h
    subst h
    intro d hd
    simp only [focusReactSym] at hd
    rw [List.mem_singleton] at hd
    subst hd
    intro p hp
    rcases List.mem_cons.mp hp with hp | hp
    · subst hp; simp [paramAnnotated]
    · rw [List.mem_singleton] at hp; subst hp; simp [paramAnnotated]
  · simp only [goodInfo] at h
    simp [hn] at h

end RNTSCodegen
